import Mathlib

/-!
Shallow embedding of the task and shared-memory subsystem of
`src/kernel/tasking.c` (skift kernel), together with theorems settling the
frozen claims about its specification.

Conventions of the embedding:
* machine pointers and addresses are `Nat`; C `int` values are `Int`;
* the external collaborators (scheduler, physical/virtual allocators,
  filesystem, path algebra, concrete blocker factories) are not under
  `src/`; where a claim depends on them they are modelled from the spec
  and marked as such in their doc comments;
* an `atomic_begin`/`atomic_end` section is modelled by treating each
  operation of the layer as one step: theorems speak about the states at
  operation boundaries (and at the suspension point of `task_block`,
  which the embedding exposes explicitly);
* `assert(...)` failures halt the kernel; a function guarded by an assert
  is embedded as `Option`-valued, returning `none` when the assert trips.
-/

namespace Tasking

/- ----------------------------------------------------------------- -/
/- Result codes and task states                                      -/
/- ----------------------------------------------------------------- -/

/-- `Result` codes used by `tasking.c` (subset of `libsystem/Result.h`
that this subsystem returns). -/
inductive Result where
  | SUCCESS
  | TIMEOUT
  | ERR_NO_SUCH_TASK
  | ERR_NO_SUCH_FILE_OR_DIRECTORY
  | ERR_NOT_A_DIRECTORY
  | ERR_BAD_ADDRESS
  deriving Repr, DecidableEq

/-- Completion status of a blocker (`BlockerResult` in the kernel). -/
inductive BlockerResult where
  | BLOCKER_UNBLOCKED
  | BLOCKER_TIMEOUT
  | BLOCKER_CANCELLED
  deriving Repr, DecidableEq

/-- `TaskState`: one of NONE, RUNNING, BLOCKED, HANG, CANCELED. -/
inductive TaskState where
  | none
  | running
  | blocked
  | hang
  | canceled
  deriving Repr, DecidableEq, BEq

/- ----------------------------------------------------------------- -/
/- Paths (spec-modelled external collaborator)                       -/
/- ----------------------------------------------------------------- -/

/-- Modelled from the spec: the path algebra (`path_create`, `path_clone`,
`path_is_relative`, `path_combine`, `path_normalize`) lives outside
`src/kernel/tasking.c`.  A path is an absolute/relative flag plus a list
of components. -/
structure Path where
  absolute : Bool
  comps : List String
  deriving Repr, DecidableEq

/-- Modelled from the spec: parse a path string; it is absolute when it
starts with `/`; components are the non-empty `/`-separated pieces. -/
def path_create (s : String) : Path :=
  { absolute := match s.data with
      | '/' :: _ => true
      | _ => false
  , comps := (s.splitOn "/").filter (fun c => c ≠ "") }

/-- Modelled from the spec: a path is relative when not absolute. -/
def path_is_relative (p : Path) : Bool :=
  !p.absolute

/-- Modelled from the spec: `path_clone` copies a path. -/
def path_clone (p : Path) : Path := p

/-- Modelled from the spec: `path_combine` appends the second path's
components after the first's, keeping the first path's absoluteness. -/
def path_combine (a b : Path) : Path :=
  { absolute := a.absolute, comps := a.comps ++ b.comps }

/-- Helper for `path_normalize`: resolve `.` and `..` components, with the
accumulator kept reversed. -/
def normalizeComps : List String → List String → List String
  | [], acc => acc.reverse
  | c :: rest, acc =>
      if c = "." then normalizeComps rest acc
      else if c = ".." then normalizeComps rest acc.tail
      else normalizeComps rest (c :: acc)

/-- Modelled from the spec: `path_normalize` resolves `.` and `..`
components in place. -/
def path_normalize (p : Path) : Path :=
  { p with comps := normalizeComps p.comps [] }

/- ----------------------------------------------------------------- -/
/- Blockers (framework from tasking.c; factories spec-modelled)      -/
/- ----------------------------------------------------------------- -/

/-- The part of the world a blocker predicate may read: the current tick
and a view of the task registry (state and exit value by task id). -/
structure BlockEnv where
  tick : Int
  taskState : Nat → Option TaskState
  taskExit : Nat → Int

/-- A blocker: a `can_unblock` predicate, an optional `on_unblock` hook
(whose observable effect here is the integer it writes through its out
pointer), and the absolute-tick `timeout` slot that `task_block` fills in.
The `result` slot written by the scheduler is modelled by the
`SchedOutcome` argument of `task_block`. -/
structure Blocker where
  canUnblock : BlockEnv → Bool
  onUnblock : Option (BlockEnv → Int)
  timeout : Int

/-- Modelled from the spec: `blocker_time(deadline)` unblocks when the
current tick has reached the deadline; it has no `on_unblock` hook. -/
def blocker_time_create (deadline : Int) : Blocker :=
  { canUnblock := fun env => deadline ≤ env.tick
  , onUnblock := .none
  , timeout := 0 }

/-- Modelled from the spec: `blocker_wait(target, out)` unblocks when the
target task's state is CANCELED; `on_unblock` writes the target's exit
value through the out pointer. -/
def blocker_wait_create (targetId : Nat) : Blocker :=
  { canUnblock := fun env => env.taskState targetId = some TaskState.canceled
  , onUnblock := some (fun env => env.taskExit targetId)
  , timeout := 0 }

/- ----------------------------------------------------------------- -/
/- Tasks and memory mappings                                         -/
/- ----------------------------------------------------------------- -/

/-- A shared-memory mapping (`MemoryMapping`): backing object id, virtual
base address in the owning task's space, and size. -/
structure MemoryMapping where
  objectId : Nat
  address : Nat
  size : Nat
  deriving Repr, DecidableEq, BEq

/-- One record of a `task_stack_push`: the address returned (the new
stack pointer) and the number of bytes pushed. -/
structure StackPush where
  addr : Nat
  size : Nat
  deriving Repr, DecidableEq

/-- The `Task` structure of `tasking.c` (fields relevant to the claims;
`pdirKernel` records whether `task->pdir == memory_kpdir()`). -/
structure Task where
  id : Nat
  name : String
  state : TaskState
  user : Bool
  pdirKernel : Bool
  blocker : Option Blocker
  exitValue : Int
  memoryMapping : List MemoryMapping
  cwdPath : Path
  stackPointer : Nat
  pushes : List StackPush
  entry : Nat

/-- Global tasking state: the `all_tasks` registry and the `TID` counter. -/
structure TaskingState where
  tasks : List Task
  nextId : Nat

/-- `PROCESS_STACK_SIZE` (fixed stack size, a few pages; the header that
defines it is not under `src/`, 16 KiB as in the upstream headers). -/
def PROCESS_STACK_SIZE : Nat := 16384

/-- `PROCESS_ARG_COUNT` (compile-time maximum argument count for
`task_spawn_with_argv`; the header that defines it is not under `src/`). -/
def PROCESS_ARG_COUNT : Nat := 128

/-- `task_create(parent, name, user)`: allocate the next id, state NONE,
kernel page directory unless `user`, empty mapping list, cwd cloned from
the parent (or `/`), fresh zeroed stack (its base address `stackBase`
comes from the external allocator), and append to the registry. -/
def task_create (st : TaskingState) (parent : Option Task) (name : String)
    (user : Bool) (stackBase : Nat) : Task × TaskingState :=
  let cwd := match parent with
    | some p => path_clone p.cwdPath
    | Option.none => path_create "/"
  let task : Task :=
    { id := st.nextId
    , name := name
    , state := TaskState.none
    , user := false
    , pdirKernel := !user
    , blocker := Option.none
    , exitValue := 0
    , memoryMapping := []
    , cwdPath := cwd
    , stackPointer := stackBase + PROCESS_STACK_SIZE - 1
    , pushes := []
    , entry := 0 }
  (task, { tasks := st.tasks ++ [task], nextId := st.nextId + 1 })

/-- `task_set_state(task, state)`: report `(old, new)` to the scheduler
(returned as the second component), then mutate the state. -/
def task_set_state (t : Task) (s : TaskState) : Task × (TaskState × TaskState) :=
  ({ t with state := s }, (t.state, s))

/-- `task_set_entry(task, entry, user)`: record the entry point and the
user flag. -/
def task_set_entry (t : Task) (entry : Nat) (user : Bool) : Task :=
  { t with entry := entry, user := user }

/-- `task_stack_push(task, value, size)`: move the stack pointer down by
`size`, copy the value there, and return the new stack pointer. -/
def task_stack_push (t : Task) (size : Nat) : Task × Nat :=
  let sp := t.stackPointer - size
  ({ t with stackPointer := sp, pushes := { addr := sp, size := size } :: t.pushes }, sp)

/-- Size of a pushed pointer or `int` on the 32-bit target. -/
def WORD_SIZE : Nat := 4

/-- `task_spawn(parent, name, entry, arg, user)`: create, install the
entry with the caller's `user` flag, push `arg` (one pointer). -/
def task_spawn (st : TaskingState) (parent : Option Task) (name : String)
    (entry : Nat) (user : Bool) (stackBase : Nat) : Task × TaskingState :=
  let (task, st') := task_create st parent name user stackBase
  let task := task_set_entry task entry user
  let (task, _) := task_stack_push task WORD_SIZE
  (task, st')

/-- `task_spawn_with_argv(parent, name, entry, argv, user)`: create,
install the entry — the source passes the literal `true` to
`task_set_entry`, not the caller's `user` flag — then push each argv
string (NUL included), the pointer array, the pointer to that array, and
`argc`. -/
def task_spawn_with_argv (st : TaskingState) (parent : Option Task)
    (name : String) (entry : Nat) (argv : List String) (user : Bool)
    (stackBase : Nat) : Task × TaskingState :=
  let created := task_create st parent name user stackBase
  let task := task_set_entry created.1 entry true
  let args := argv.take PROCESS_ARG_COUNT
  let task := args.foldl (fun t a => (task_stack_push t (a.length + 1)).1) task
  let task := (task_stack_push task (PROCESS_ARG_COUNT * WORD_SIZE)).1
  let task := (task_stack_push task WORD_SIZE).1
  let task := (task_stack_push task WORD_SIZE).1
  (task, created.2)

/-- `task_by_id(id)`: linear scan of the `all_tasks` registry. -/
def task_by_id (tasks : List Task) (id : Nat) : Option Task :=
  tasks.find? (fun t => t.id == id)

/-- `task_count()`: size of the registry. -/
def task_count (st : TaskingState) : Nat :=
  st.tasks.length

/- ----------------------------------------------------------------- -/
/- Blocking                                                          -/
/- ----------------------------------------------------------------- -/

/-- What the external scheduler did while the task was suspended in
`scheduler_yield()`: the `result` it wrote into the blocker and the state
it moved the task to when resuming it (RUNNING, per the spec). -/
structure SchedOutcome where
  result : BlockerResult
  stateAfter : TaskState

/-- The observable outcome of one `task_block` call: the returned
`BlockerResult`, the task as `task_block` leaves it, whether the call
suspended (took the slow path through `scheduler_yield`), whether the
fast path ran `on_unblock` (and the value it wrote, when any), and the
task as it stood at the suspension point (blocker installed, state
BLOCKED), when the slow path was taken. -/
structure BlockOutcome where
  result : BlockerResult
  task : Task
  suspended : Bool
  onUnblockRan : Bool
  written : Option Int
  atYield : Option Task

/-- `task_block(task, blocker, timeout)`.  `assert(!task->blocker)` is
modelled by returning `none` when a blocker is already installed.  Fast
path: the freshly installed blocker can already unblock — run
`on_unblock` when present, clear the slot, free the blocker and return
UNBLOCKED without suspending and without touching the state.  Slow path:
fill in the blocker's absolute timeout (`-1` stays infinite), transition
to BLOCKED, yield; on resume return the scheduler-written result and
clear the slot. -/
def task_block (env : BlockEnv) (t : Task) (b : Blocker) (timeout : Int)
    (sched : SchedOutcome) : Option BlockOutcome :=
  if t.blocker.isSome then Option.none
  else if b.canUnblock env then
    some { result := BlockerResult.BLOCKER_UNBLOCKED
         , task := { t with blocker := Option.none }
         , suspended := false
         , onUnblockRan := b.onUnblock.isSome
         , written := b.onUnblock.map (fun f => f env)
         , atYield := Option.none }
  else
    let bTimed := { b with timeout := if timeout = -1 then -1 else env.tick + timeout }
    let tBlocked := (task_set_state { t with blocker := some bTimed } TaskState.blocked).1
    some { result := sched.result
         , task := { tBlocked with state := sched.stateAfter, blocker := Option.none }
         , suspended := true
         , onUnblockRan := false
         , written := Option.none
         , atYield := some tBlocked }

/-- `task_sleep(task, timeout)`: block on a time blocker whose deadline is
`current_tick + timeout`, then return TIMEOUT unconditionally. -/
def task_sleep (env : BlockEnv) (t : Task) (timeout : Int)
    (sched : SchedOutcome) : Result × Option BlockOutcome :=
  (Result.TIMEOUT, task_block env t (blocker_time_create (env.tick + timeout)) (-1) sched)

/-- The observable outcome of one `task_wait` call: the returned result,
whether `task_block` was reached, the target id of the wait blocker that
was installed (when any), and the `task_block` outcome itself. -/
structure WaitOutcome where
  result : Result
  calledBlock : Bool
  blockerTarget : Option Nat
  blockOutcome : Option BlockOutcome

/-- `task_wait(task_id, &exit_value)`: look the id up in the registry;
unknown ids return ERR_NO_SUCH_TASK without ever reaching `task_block`;
otherwise block the currently-running task on a wait blocker for the
found task and return SUCCESS. -/
def task_wait (env : BlockEnv) (tasks : List Task) (running : Task)
    (task_id : Nat) (sched : SchedOutcome) : WaitOutcome :=
  match task_by_id tasks task_id with
  | Option.none =>
      { result := Result.ERR_NO_SUCH_TASK
      , calledBlock := false
      , blockerTarget := Option.none
      , blockOutcome := Option.none }
  | some target =>
      { result := Result.SUCCESS
      , calledBlock := true
      , blockerTarget := some target.id
      , blockOutcome := task_block env running (blocker_wait_create target.id) (-1) sched }

/- ----------------------------------------------------------------- -/
/- Cancellation                                                      -/
/- ----------------------------------------------------------------- -/

/-- `task_cancel(task, exit_value)`: under atomic, store the exit value,
transition to CANCELED (reporting `(old, CANCELED)` to the scheduler),
and return SUCCESS — unconditionally, whatever the current state.  It
does not touch the blocker slot. -/
def task_cancel (t : Task) (exit_value : Int) :
    Task × (TaskState × TaskState) × Result :=
  let tv := { t with exitValue := exit_value }
  let (tc, report) := task_set_state tv TaskState.canceled
  (tc, report, Result.SUCCESS)

/- ----------------------------------------------------------------- -/
/- Shared memory                                                     -/
/- ----------------------------------------------------------------- -/

/-- A reference-counted shared `MemoryObject`: id, refcount, physical
base address, page-aligned size. -/
structure MemoryObject where
  id : Nat
  refcount : Nat
  address : Nat
  size : Nat
  deriving Repr, DecidableEq, BEq

/-- The `_memory_objects` registry together with the `_memory_object_id`
counter. -/
structure SharedState where
  objects : List MemoryObject
  nextId : Nat

def PAGE_SIZE : Nat := 4096

/-- `PAGE_ALIGN_UP`. -/
def page_align_up (size : Nat) : Nat :=
  ((size + PAGE_SIZE - 1) / PAGE_SIZE) * PAGE_SIZE

/-- `memory_object_create(size)`: align the size up to a page multiple,
allocate physical pages (the base `phys` comes from the external physical
allocator), refcount 1, append to the registry. -/
def memory_object_create (sh : SharedState) (size : Nat) (phys : Nat) :
    MemoryObject × SharedState :=
  let obj : MemoryObject :=
    { id := sh.nextId
    , refcount := 1
    , address := phys
    , size := page_align_up size }
  (obj, { objects := sh.objects ++ [obj], nextId := sh.nextId + 1 })

/-- `memory_object_ref`: atomically increment the refcount of the named
object (objects are named by id here; ids are unique in the registry). -/
def memory_object_ref (sh : SharedState) (oid : Nat) : SharedState :=
  { sh with objects := sh.objects.map (fun o =>
      if o.id = oid then { o with refcount := o.refcount + 1 } else o) }

/-- One object's fate under `memory_object_deref`. -/
def derefObject (oid : Nat) (o : MemoryObject) : Option MemoryObject :=
  if o.id = oid then
    if o.refcount = 1 then Option.none
    else some { o with refcount := o.refcount - 1 }
  else some o

/-- `memory_object_deref`: decrement the refcount; a decrement that
reaches zero destroys the object (removes it from the registry and frees
its physical pages). -/
def memory_object_deref (sh : SharedState) (oid : Nat) : SharedState :=
  { sh with objects := sh.objects.filterMap (derefObject oid) }

/-- `memory_object_by_id(id)`: locate by id and take a reference before
returning. -/
def memory_object_by_id (sh : SharedState) (oid : Nat) :
    Option MemoryObject × SharedState :=
  match sh.objects.find? (fun o => o.id == oid) with
  | Option.none => (Option.none, sh)
  | some o => (some o, memory_object_ref sh oid)

/-- `task_memory_mapping_create(task, object)`: take a reference on the
object, reserve a virtual range for it in the task's space (its base
`vaddr` comes from the external virtual allocator), and record the
mapping on the task. -/
def task_memory_mapping_create (sh : SharedState) (t : Task)
    (obj : MemoryObject) (vaddr : Nat) : MemoryMapping × Task × SharedState :=
  let sh' := memory_object_ref sh obj.id
  let m : MemoryMapping := { objectId := obj.id, address := vaddr, size := obj.size }
  (m, { t with memoryMapping := t.memoryMapping ++ [m] }, sh')

/-- `task_memory_mapping_destroy(task, mapping)`: free the virtual range,
drop the object reference, remove the mapping from the task's list. -/
def task_memory_mapping_destroy (sh : SharedState) (t : Task)
    (m : MemoryMapping) : Task × SharedState :=
  let sh' := memory_object_deref sh m.objectId
  ({ t with memoryMapping := t.memoryMapping.eraseP (fun x => x == m) }, sh')

/-- `task_memory_mapping_by_address(task, address)`: first mapping whose
base address equals `address` exactly. -/
def task_memory_mapping_by_address (t : Task) (address : Nat) :
    Option MemoryMapping :=
  t.memoryMapping.find? (fun m => m.address == address)

/-- `task_shared_memory_alloc(task, size)`: create an object, map it into
the task, then drop the creator's implicit reference, leaving the mapping
as sole owner.  Returns the mapping's base address. -/
def task_shared_memory_alloc (sh : SharedState) (t : Task) (size : Nat)
    (phys vaddr : Nat) : Result × Nat × Task × SharedState :=
  let created := memory_object_create sh size phys
  let mapped := task_memory_mapping_create created.2 t created.1 vaddr
  let sh₃ := memory_object_deref mapped.2.2 created.1.id
  (Result.SUCCESS, mapped.1.address, mapped.2.1, sh₃)

/-- `task_shared_memory_free(task, address)`: find the mapping by exact
base address; absent means ERR_BAD_ADDRESS with nothing changed;
otherwise destroy that mapping and return SUCCESS. -/
def task_shared_memory_free (sh : SharedState) (t : Task) (address : Nat) :
    Result × Task × SharedState :=
  match task_memory_mapping_by_address t address with
  | Option.none => (Result.ERR_BAD_ADDRESS, t, sh)
  | some m =>
      (Result.SUCCESS, (task_memory_mapping_destroy sh t m).1,
        (task_memory_mapping_destroy sh t m).2)

/- ----------------------------------------------------------------- -/
/- Destruction                                                       -/
/- ----------------------------------------------------------------- -/

/-- The observable outcome of `task_destroy`: the registry and shared
state afterwards, the state transition reported to the scheduler (absent
when the task was already NONE), how many of the task's memory mappings
were destroyed, and whether the task's page directory was destroyed. -/
structure DestroyOutcome where
  tasks : List Task
  shared : SharedState
  report : Option (TaskState × TaskState)
  mappingsDestroyed : Nat
  pdirDestroyed : Bool

/-- `task_destroy(task)`: under atomic, transition to NONE (unless
already NONE) and remove the task from the registry; then destroy every
memory mapping of the task, free its stack, and destroy its page
directory only when it is not the kernel's shared one, and free the
task. -/
def task_destroy (tasks : List Task) (sh : SharedState) (t : Task) :
    DestroyOutcome :=
  let report :=
    if t.state ≠ TaskState.none then some (task_set_state t TaskState.none).2
    else Option.none
  let tasks' := tasks.eraseP (fun x => x.id == t.id)
  let sh' := t.memoryMapping.foldl (fun s m => memory_object_deref s m.objectId) sh
  { tasks := tasks'
  , shared := sh'
  , report := report
  , mappingsDestroyed := t.memoryMapping.length
  , pdirDestroyed := !t.pdirKernel }

/- ----------------------------------------------------------------- -/
/- Current working directory                                         -/
/- ----------------------------------------------------------------- -/

/-- File node types, as far as `task_set_cwd` inspects them (the
filesystem layer is external to `src/kernel/tasking.c`). -/
inductive FileType where
  | directory
  | other
  deriving Repr, DecidableEq

/-- A filesystem node as observed by `task_set_cwd`. -/
structure FsNode where
  type : FileType
  deriving Repr, DecidableEq

/-- `task_cwd_resolve(task, buffer)`: parse the text; when the parsed
path is relative, combine it with the task's cwd (under the cwd lock);
then normalize. -/
def task_cwd_resolve (t : Task) (buffer : String) : Path :=
  let path := path_create buffer
  let path :=
    if path_is_relative path then path_combine t.cwdPath path
    else path
  path_normalize path

/-- `task_set_cwd(task, buffer)`: resolve the text against the cwd, look
the resulting path up in the filesystem (`fs` models
`filesystem_find_and_ref`), fail with ERR_NO_SUCH_FILE_OR_DIRECTORY when
absent and ERR_NOT_A_DIRECTORY when not a directory, and otherwise swap
the task's cwd to the resolved path. -/
def task_set_cwd (fs : Path → Option FsNode) (t : Task) (buffer : String) :
    Result × Task :=
  let path := task_cwd_resolve t buffer
  match fs path with
  | Option.none => (Result.ERR_NO_SUCH_FILE_OR_DIRECTORY, t)
  | some node =>
      if node.type ≠ FileType.directory then (Result.ERR_NOT_A_DIRECTORY, t)
      else (Result.SUCCESS, { t with cwdPath := path })

/-- Follows the spec's words (refinement target for the claim that
`set_cwd` on a relative path equals `set_cwd` of
`normalize(combine(old_cwd, rel))`): install an already-resolved path
after the same filesystem checks `task_set_cwd` performs. -/
def set_cwd_spec (fs : Path → Option FsNode) (t : Task) (path : Path) :
    Result × Task :=
  match fs path with
  | Option.none => (Result.ERR_NO_SUCH_FILE_OR_DIRECTORY, t)
  | some node =>
      if node.type ≠ FileType.directory then (Result.ERR_NOT_A_DIRECTORY, t)
      else (Result.SUCCESS, { t with cwdPath := path })

/- ----------------------------------------------------------------- -/
/- Stated invariants                                                 -/
/- ----------------------------------------------------------------- -/

/-- Spec invariant 2 as a decidable predicate on one task: the blocker
slot is occupied exactly when the state is BLOCKED. -/
def blockerInv (t : Task) : Bool :=
  t.blocker.isSome == decide (t.state = TaskState.blocked)

/-- Refcount of the object with the given id in the shared registry,
when present. -/
def refcountOf (sh : SharedState) (oid : Nat) : Option Nat :=
  (sh.objects.find? (fun o => o.id == oid)).map (fun o => o.refcount)

/-- How many of this task's memory mappings reference the given object. -/
def mappingsTo (t : Task) (oid : Nat) : Nat :=
  t.memoryMapping.countP (fun m => m.objectId == oid)

/- ----------------------------------------------------------------- -/
/- Sample values (used to instantiate the theorems concretely)       -/
/- ----------------------------------------------------------------- -/

/-- A sample environment: tick 100, empty registry view. -/
def env₀ : BlockEnv :=
  { tick := 100, taskState := fun _ => Option.none, taskExit := fun _ => 0 }

/-- A sample scheduler outcome: timed out, task resumed RUNNING. -/
def sched₀ : SchedOutcome :=
  { result := BlockerResult.BLOCKER_TIMEOUT, stateAfter := TaskState.running }

/-- A sample running kernel task with an empty blocker slot. -/
def t₀ : Task :=
  { id := 0
  , name := "idle"
  , state := TaskState.running
  , user := false
  , pdirKernel := true
  , blocker := Option.none
  , exitValue := 0
  , memoryMapping := []
  , cwdPath := path_create "/"
  , stackPointer := 16383
  , pushes := []
  , entry := 0 }

/-- A second sample task, with id 5. -/
def t₅ : Task :=
  { t₀ with id := 5, name := "five" }

/-- A sample BLOCKED task with a time blocker installed. -/
def tBlocked : Task :=
  { t₀ with
    id := 2
    state := TaskState.blocked
    blocker := some (blocker_time_create 123) }

/-- A sample task owning one shared-memory mapping at base 4096. -/
def tMapped : Task :=
  { t₀ with
    id := 3
    memoryMapping := [{ objectId := 0, address := 4096, size := 4096 }] }

/-- An empty shared-memory registry. -/
def sh₀ : SharedState := { objects := [], nextId := 0 }

/-- A shared-memory registry holding the object backing `tMapped`. -/
def shOne : SharedState :=
  { objects := [{ id := 0, refcount := 1, address := 0, size := 4096 }], nextId := 1 }

/-- An empty tasking state. -/
def st₀ : TaskingState := { tasks := [], nextId := 0 }

/- ================================================================= -/
/- Helper lemmas                                                     -/
/- ================================================================= -/

theorem stack_push_user (t : Task) (s : Nat) :
    (task_stack_push t s).1.user = t.user := rfl

theorem stack_push_pdirKernel (t : Task) (s : Nat) :
    (task_stack_push t s).1.pdirKernel = t.pdirKernel := rfl

theorem foldl_push_user (args : List String) (t : Task) :
    (args.foldl (fun t a => (task_stack_push t (a.length + 1)).1) t).user
      = t.user := by
  induction args generalizing t with
  | nil => rfl
  | cons a args ih => simpa [List.foldl] using ih (task_stack_push t (a.length + 1)).1

theorem foldl_push_pdirKernel (args : List String) (t : Task) :
    (args.foldl (fun t a => (task_stack_push t (a.length + 1)).1) t).pdirKernel
      = t.pdirKernel := by
  induction args generalizing t with
  | nil => rfl
  | cons a args ih => simpa [List.foldl] using ih (task_stack_push t (a.length + 1)).1

/-- The fast path of `task_block`, as one equation: with an empty blocker
slot and a predicate that is already satisfied, `task_block` runs the
hook, clears the slot, and reports UNBLOCKED without suspending. -/
theorem task_block_fast (env : BlockEnv) (t : Task) (b : Blocker)
    (timeout : Int) (sched : SchedOutcome)
    (hslot : t.blocker = Option.none) (hcan : b.canUnblock env = true) :
    task_block env t b timeout sched = some
      { result := BlockerResult.BLOCKER_UNBLOCKED
      , task := { t with blocker := Option.none }
      , suspended := false
      , onUnblockRan := b.onUnblock.isSome
      , written := b.onUnblock.map (fun f => f env)
      , atYield := Option.none } := by
  simp [task_block, hslot, hcan]

/- ================================================================= -/
/- C2: the user flag recorded by task_spawn_with_argv                -/
/- ================================================================= -/

/-- C2 counterexample: `task_spawn_with_argv` called with `user = false`
does not leave the created task's `user` attribute equal to `false` —
the source passes the literal `true` to `task_set_entry`. -/
theorem spawn_with_argv_user_flag_cex :
    ¬ ((task_spawn_with_argv st₀ Option.none "sh" 7 ["a"] false 4096).1.user
        = false) := by
  decide

/-- C2 (amended): `task_spawn_with_argv` always records `user = true` on
the created task, whatever the caller passed; the caller's `user`
argument still selects the address space (kernel page directory exactly
when not `user`).  `task_spawn`, by contrast, records the caller's flag
exactly. -/
theorem spawn_with_argv_user_flag (st : TaskingState) (parent : Option Task)
    (name : String) (entry : Nat) (argv : List String) (user : Bool)
    (stackBase : Nat) :
    (task_spawn_with_argv st parent name entry argv user stackBase).1.user = true
    ∧ (task_spawn_with_argv st parent name entry argv user stackBase).1.pdirKernel
        = !user
    ∧ (task_spawn st parent name entry user stackBase).1.user = user := by
  refine ⟨?_, ?_, rfl⟩
  · simp only [task_spawn_with_argv]
    rw [stack_push_user, stack_push_user, stack_push_user, foldl_push_user]
    rfl
  · simp only [task_spawn_with_argv]
    rw [stack_push_pdirKernel, stack_push_pdirKernel, stack_push_pdirKernel,
      foldl_push_pdirKernel]
    rfl

/- ================================================================= -/
/- C10: task_cancel succeeds from every state                        -/
/- ================================================================= -/

/-- C10: for every task in any state and every exit value,
`task_cancel` stores the value, reports `(old state, CANCELED)` to the
scheduler, transitions to CANCELED and returns SUCCESS; cancelling an
already-CANCELED task succeeds again and overwrites the exit value. -/
theorem cancel_any_state (t : Task) (v w : Int) :
    (task_cancel t v).1 = { t with exitValue := v, state := TaskState.canceled }
    ∧ (task_cancel t v).2.1 = (t.state, TaskState.canceled)
    ∧ (task_cancel t v).2.2 = Result.SUCCESS
    ∧ (task_cancel (task_cancel t v).1 w).2.2 = Result.SUCCESS
    ∧ (task_cancel (task_cancel t v).1 w).1.exitValue = w
    ∧ (task_cancel (task_cancel t v).1 w).2.1
        = (TaskState.canceled, TaskState.canceled) := by
  exact ⟨rfl, rfl, rfl, rfl, rfl, rfl⟩

/- ================================================================= -/
/- C3: the fast path of task_block                                   -/
/- ================================================================= -/

/-- C3: whenever the blocker's `can_unblock` predicate already holds at
installation time (and the slot was empty, as `task_block` asserts),
`task_block` runs `on_unblock` when present (returning the value it
wrote), leaves the blocker slot empty, returns UNBLOCKED, does not
suspend, and leaves the task's state unchanged. -/
theorem block_fast_path (env : BlockEnv) (t : Task) (b : Blocker)
    (timeout : Int) (sched : SchedOutcome)
    (hslot : t.blocker = Option.none) (hcan : b.canUnblock env = true) :
    task_block env t b timeout sched = some
      { result := BlockerResult.BLOCKER_UNBLOCKED
      , task := { t with blocker := Option.none }
      , suspended := false
      , onUnblockRan := b.onUnblock.isSome
      , written := b.onUnblock.map (fun f => f env)
      , atYield := Option.none } :=
  task_block_fast env t b timeout sched hslot hcan

/-- C3 witness: the fast path observed on a concrete task and a time
blocker whose deadline has already passed. -/
theorem block_fast_path_witness :
    task_block env₀ t₀ (blocker_time_create 0) 5 sched₀ = some
      { result := BlockerResult.BLOCKER_UNBLOCKED
      , task := { t₀ with blocker := Option.none }
      , suspended := false
      , onUnblockRan := false
      , written := Option.none
      , atYield := Option.none } :=
  block_fast_path env₀ t₀ (blocker_time_create 0) 5 sched₀ rfl (by decide)

/- ================================================================= -/
/- C4: task_sleep always returns TIMEOUT                             -/
/- ================================================================= -/

/-- C4: `task_sleep` returns TIMEOUT on completion whatever the blocker
result delivered by the scheduler was, and `task_sleep` with timeout 0
takes the fast path: it completes without suspending (its time blocker
is satisfied at installation). -/
theorem sleep_returns_timeout :
    (∀ (env : BlockEnv) (t : Task) (timeout : Int) (sched : SchedOutcome),
        (task_sleep env t timeout sched).1 = Result.TIMEOUT)
    ∧ (∀ (env : BlockEnv) (t : Task) (sched : SchedOutcome),
        t.blocker = Option.none →
        (task_sleep env t 0 sched).2 = some
          { result := BlockerResult.BLOCKER_UNBLOCKED
          , task := { t with blocker := Option.none }
          , suspended := false
          , onUnblockRan := false
          , written := Option.none
          , atYield := Option.none }) := by
  constructor
  · intro env t timeout sched
    rfl
  · intro env t sched hslot
    have hcan : (blocker_time_create (env.tick + 0)).canUnblock env = true := by
      simp [blocker_time_create]
    simpa [task_sleep] using
      task_block_fast env t (blocker_time_create (env.tick + 0)) (-1) sched hslot hcan

/-- C4 witness: a concrete sleep returns TIMEOUT for a scheduler-delivered
TIMEOUT blocker result, and a concrete `sleep(0)` does not suspend. -/
theorem sleep_returns_timeout_witness :
    (task_sleep env₀ t₀ 37 sched₀).1 = Result.TIMEOUT
    ∧ (task_sleep env₀ t₀ 0 sched₀).2 = some
      { result := BlockerResult.BLOCKER_UNBLOCKED
      , task := { t₀ with blocker := Option.none }
      , suspended := false
      , onUnblockRan := false
      , written := Option.none
      , atYield := Option.none } :=
  ⟨sleep_returns_timeout.1 env₀ t₀ 37 sched₀,
   sleep_returns_timeout.2 env₀ t₀ sched₀ rfl⟩

/- ================================================================= -/
/- C1: blocker slot ⇔ BLOCKED, across the operations of the layer    -/
/- ================================================================= -/

/-- C1 counterexample: `task_cancel` does not preserve the equivalence
"blocker slot occupied ⇔ state = BLOCKED": on a BLOCKED task with an
installed blocker the equivalence holds before the call and fails after
it, because `task_cancel` moves the state to CANCELED without clearing
the blocker slot. -/
theorem blocker_state_equiv_cex :
    blockerInv tBlocked = true
    ∧ blockerInv (task_cancel tBlocked 7).1 = false := by
  constructor <;> rfl

/-- C1 (amended): at most one blocker is ever installed per task
(`task_block` refuses — asserts — when the slot is occupied), and the
equivalence "blocker slot occupied ⇔ state = BLOCKED" is preserved by
`task_block` (at its completion, given that the scheduler resumes the
task to a non-BLOCKED state, and at its suspension point), by
`task_set_state` whenever the new state's blockedness matches the slot,
by `task_destroy` across the registry, and by `task_cancel` only for
tasks with an empty blocker slot: cancelling a BLOCKED task leaves its
blocker installed with state CANCELED until `task_block`'s resume path
clears it. -/
theorem blocker_state_equiv_amended :
    (∀ (env : BlockEnv) (t : Task) (b : Blocker) (timeout : Int)
        (sched : SchedOutcome),
        t.blocker.isSome = true → task_block env t b timeout sched = Option.none)
    ∧ (∀ (env : BlockEnv) (t : Task) (b : Blocker) (timeout : Int)
        (sched : SchedOutcome) (out : BlockOutcome),
        t.blocker = Option.none → blockerInv t = true →
        sched.stateAfter ≠ TaskState.blocked →
        task_block env t b timeout sched = some out →
        blockerInv out.task = true ∧ out.atYield.all blockerInv = true)
    ∧ (∀ (t : Task) (s : TaskState),
        t.blocker.isSome = decide (s = TaskState.blocked) →
        blockerInv (task_set_state t s).1 = true)
    ∧ (∀ (t : Task) (v : Int), t.blocker = Option.none →
        blockerInv (task_cancel t v).1 = true)
    ∧ (∀ (tasks : List Task) (sh : SharedState) (t : Task),
        tasks.all blockerInv = true →
        (task_destroy tasks sh t).tasks.all blockerInv = true) := by
  refine ⟨?_, ?_, ?_, ?_, ?_⟩
  · intro env t b timeout sched h
    simp [task_block, h]
  · intro env t b timeout sched out hslot hinv hsched heq
    by_cases hcan : b.canUnblock env = true
    · rw [task_block_fast env t b timeout sched hslot hcan] at heq
      cases heq
      simp only [blockerInv, Option.isSome_none] at hinv ⊢
      constructor
      · simpa [hslot] using hinv
      · rfl
    · have hcan' : b.canUnblock env = false := by
        cases hb : b.canUnblock env
        · rfl
        · exact absurd hb hcan
      simp only [task_block, hslot, Option.isSome_none, Bool.false_eq_true,
        if_false, hcan', task_set_state] at heq
      cases heq
      constructor
      · simp [blockerInv]
        intro hs
        exact absurd hs hsched
      · simp [blockerInv]
  · intro t s h
    simp [blockerInv, task_set_state, h]
  · intro t v hslot
    simp [blockerInv, task_cancel, task_set_state, hslot]
  · intro tasks sh t hall
    rw [List.all_eq_true] at hall ⊢
    intro u hu
    exact hall u (List.mem_of_mem_eraseP hu)

/-- C1 witness: the amended statement exercised on concrete inputs —
a double install refused, a fast-path block preserving the equivalence,
a state change to HANG, a cancel of an unblocked task, and a destroy
out of a one-task registry. -/
theorem blocker_state_equiv_amended_witness :
    task_block env₀ tBlocked (blocker_time_create 0) 5 sched₀ = Option.none
    ∧ (blockerInv
        (BlockOutcome.task
          { result := BlockerResult.BLOCKER_UNBLOCKED
          , task := { t₀ with blocker := Option.none }
          , suspended := false
          , onUnblockRan := false
          , written := Option.none
          , atYield := Option.none }) = true
       ∧ Option.all blockerInv
          (BlockOutcome.atYield
            { result := BlockerResult.BLOCKER_UNBLOCKED
            , task := { t₀ with blocker := Option.none }
            , suspended := false
            , onUnblockRan := false
            , written := Option.none
            , atYield := Option.none }) = true)
    ∧ blockerInv (task_set_state t₀ TaskState.hang).1 = true
    ∧ blockerInv (task_cancel t₀ 3).1 = true
    ∧ (task_destroy [t₀, t₅] sh₀ t₅).tasks.all blockerInv = true :=
  ⟨blocker_state_equiv_amended.1 env₀ tBlocked (blocker_time_create 0) 5 sched₀ rfl,
   blocker_state_equiv_amended.2.1 env₀ t₀ (blocker_time_create 0) 5 sched₀ _
     rfl rfl (by decide)
     (task_block_fast env₀ t₀ (blocker_time_create 0) 5 sched₀ rfl (by decide)),
   blocker_state_equiv_amended.2.2.1 t₀ TaskState.hang rfl,
   blocker_state_equiv_amended.2.2.2.1 t₀ 3 rfl,
   blocker_state_equiv_amended.2.2.2.2 [t₀, t₅] sh₀ t₅ (by decide)⟩

/- ================================================================= -/
/- C5: task_wait and unknown ids                                     -/
/- ================================================================= -/

/-- Characterization used by C5: `task_by_id` misses exactly when no
registered task carries the id. -/
theorem by_id_none_iff (tasks : List Task) (id : Nat) :
    task_by_id tasks id = Option.none ↔ ∀ u ∈ tasks, u.id ≠ id := by
  simp [task_by_id, List.find?_eq_none]

/-- C5: `task_wait` returns NO_SUCH_TASK — installing no blocker and
never reaching `task_block` — exactly when no registered task has the
requested id; otherwise it blocks the currently-running task on a wait
blocker for the found task and returns SUCCESS. -/
theorem wait_no_such_task :
    (∀ (tasks : List Task) (id : Nat),
        task_by_id tasks id = Option.none ↔ ∀ u ∈ tasks, u.id ≠ id)
    ∧ (∀ (env : BlockEnv) (tasks : List Task) (running : Task) (id : Nat)
        (sched : SchedOutcome),
        task_by_id tasks id = Option.none →
        task_wait env tasks running id sched =
          { result := Result.ERR_NO_SUCH_TASK
          , calledBlock := false
          , blockerTarget := Option.none
          , blockOutcome := Option.none })
    ∧ (∀ (env : BlockEnv) (tasks : List Task) (running : Task) (id : Nat)
        (sched : SchedOutcome) (target : Task),
        task_by_id tasks id = some target →
        (task_wait env tasks running id sched).result = Result.SUCCESS
        ∧ (task_wait env tasks running id sched).calledBlock = true
        ∧ (task_wait env tasks running id sched).blockerTarget = some target.id
        ∧ (task_wait env tasks running id sched).blockOutcome
            = task_block env running (blocker_wait_create target.id) (-1) sched) := by
  refine ⟨by_id_none_iff, ?_, ?_⟩
  · intro env tasks running id sched h
    simp [task_wait, h]
  · intro env tasks running id sched target h
    simp [task_wait, h]

/-- C5 witness: on the registry `[t₅]` (one task, id 5), waiting on the
unknown id 9 returns NO_SUCH_TASK without reaching `task_block`, and
waiting on id 5 reaches `task_block` with a wait blocker for task 5 and
returns SUCCESS. -/
theorem wait_no_such_task_witness :
    (task_by_id [t₅] 9 = Option.none ↔ ∀ u ∈ [t₅], u.id ≠ 9)
    ∧ task_wait env₀ [t₅] t₀ 9 sched₀ =
        { result := Result.ERR_NO_SUCH_TASK
        , calledBlock := false
        , blockerTarget := Option.none
        , blockOutcome := Option.none }
    ∧ (task_wait env₀ [t₅] t₀ 5 sched₀).result = Result.SUCCESS
    ∧ (task_wait env₀ [t₅] t₀ 5 sched₀).calledBlock = true
    ∧ (task_wait env₀ [t₅] t₀ 5 sched₀).blockerTarget = some t₅.id :=
  ⟨wait_no_such_task.1 [t₅] 9,
   wait_no_such_task.2.1 env₀ [t₅] t₀ 9 sched₀ rfl,
   (wait_no_such_task.2.2 env₀ [t₅] t₀ 5 sched₀ t₅ rfl).1,
   (wait_no_such_task.2.2 env₀ [t₅] t₀ 5 sched₀ t₅ rfl).2.1,
   (wait_no_such_task.2.2 env₀ [t₅] t₀ 5 sched₀ t₅ rfl).2.2.1⟩

/- ================================================================= -/
/- Shared-memory helper lemmas                                       -/
/- ================================================================= -/

theorem map_ref_id (l : List MemoryObject) (n : Nat) (h : ∀ o ∈ l, o.id < n) :
    l.map (fun o => if o.id = n then { o with refcount := o.refcount + 1 } else o)
      = l := by
  induction l with
  | nil => rfl
  | cons a l ih =>
      have ha : a.id ≠ n := Nat.ne_of_lt (h a (List.mem_cons_self a l))
      simp only [List.map_cons, if_neg ha,
        ih (fun o ho => h o (List.mem_cons_of_mem a ho))]

theorem filterMap_deref_id (l : List MemoryObject) (n : Nat)
    (h : ∀ o ∈ l, o.id < n) : l.filterMap (derefObject n) = l := by
  induction l with
  | nil => rfl
  | cons a l ih =>
      have ha : a.id ≠ n := Nat.ne_of_lt (h a (List.mem_cons_self a l))
      simp only [List.filterMap_cons, derefObject, if_neg ha,
        ih (fun o ho => h o (List.mem_cons_of_mem a ho))]

theorem find?_id_none (l : List MemoryObject) (n : Nat)
    (h : ∀ o ∈ l, o.id < n) :
    l.find? (fun o => o.id == n) = Option.none := by
  rw [List.find?_eq_none]
  intro o ho
  simpa using Nat.ne_of_lt (h o ho)

theorem countP_objectId_zero (l : List MemoryMapping) (n : Nat)
    (h : ∀ m ∈ l, m.objectId < n) :
    l.countP (fun m => m.objectId == n) = 0 := by
  rw [List.countP_eq_zero]
  intro m hm
  simpa using Nat.ne_of_lt (h m hm)

theorem find?_bump (l : List MemoryObject) (n : Nat) :
    (l.map (fun o => if o.id = n then { o with refcount := o.refcount + 1 } else o)).find?
        (fun o => o.id == n)
      = (l.find? (fun o => o.id == n)).map
          (fun o => { o with refcount := o.refcount + 1 }) := by
  induction l with
  | nil => rfl
  | cons a l ih =>
      by_cases h : a.id = n
      · simp [List.find?_cons, h]
      · simp [List.find?_cons, h, ih]

/-- `memory_object_ref` bumps the named object's refcount by exactly
one (and touches nothing else the refcount view can see). -/
theorem refcountOf_ref (sh : SharedState) (oid : Nat) :
    refcountOf (memory_object_ref sh oid) oid
      = (refcountOf sh oid).map (fun n => n + 1) := by
  simp only [refcountOf, memory_object_ref, find?_bump, Option.map_map]
  cases sh.objects.find? (fun o => o.id == oid) <;> rfl

/- ================================================================= -/
/- C6: refcount accounting of shared objects                         -/
/- ================================================================= -/

/-- C6: after `task_shared_memory_alloc` on a registry whose existing
objects and mappings all predate the fresh id, the created object's
refcount is 1 and the new mapping is its sole owner (the allocating task
references it exactly once, and any task whose mappings predate the
allocation references it zero times); in general
`task_memory_mapping_create` adds exactly one mapping holding exactly
one fresh reference, and a successful `memory_object_by_id` lookup adds
exactly one temporary reference. -/
theorem shared_memory_alloc_sole_owner :
    (∀ (sh : SharedState) (t : Task) (size phys vaddr : Nat),
        (∀ o ∈ sh.objects, o.id < sh.nextId) →
        (∀ m ∈ t.memoryMapping, m.objectId < sh.nextId) →
        refcountOf (task_shared_memory_alloc sh t size phys vaddr).2.2.2 sh.nextId
            = some 1
        ∧ mappingsTo (task_shared_memory_alloc sh t size phys vaddr).2.2.1 sh.nextId
            = 1
        ∧ (task_shared_memory_alloc sh t size phys vaddr).1 = Result.SUCCESS)
    ∧ (∀ (n : Nat) (u : Task), (∀ m ∈ u.memoryMapping, m.objectId < n) →
        mappingsTo u n = 0)
    ∧ (∀ (sh : SharedState) (t : Task) (obj : MemoryObject) (vaddr : Nat),
        (task_memory_mapping_create sh t obj vaddr).1.objectId = obj.id
        ∧ (task_memory_mapping_create sh t obj vaddr).2.1.memoryMapping
            = t.memoryMapping ++ [(task_memory_mapping_create sh t obj vaddr).1]
        ∧ refcountOf (task_memory_mapping_create sh t obj vaddr).2.2 obj.id
            = (refcountOf sh obj.id).map (fun n => n + 1))
    ∧ (∀ (sh : SharedState) (oid : Nat) (o : MemoryObject),
        sh.objects.find? (fun x => x.id == oid) = some o →
        refcountOf (memory_object_by_id sh oid).2 oid
          = (refcountOf sh oid).map (fun n => n + 1)) := by
  refine ⟨?_, ?_, ?_, ?_⟩
  · intro sh t size phys vaddr h1 h2
    refine ⟨?_, ?_, rfl⟩
    · simp only [task_shared_memory_alloc, memory_object_create,
        task_memory_mapping_create, memory_object_ref, memory_object_deref,
        refcountOf]
      rw [List.map_append, map_ref_id sh.objects sh.nextId h1]
      simp only [List.map_cons, List.map_nil, if_pos rfl]
      rw [List.filterMap_append, filterMap_deref_id sh.objects sh.nextId h1]
      simp only [List.filterMap_cons, derefObject, if_pos rfl]
      rw [List.find?_append, find?_id_none sh.objects sh.nextId h1]
      simp
    · simp only [task_shared_memory_alloc, memory_object_create,
        task_memory_mapping_create, mappingsTo]
      rw [List.countP_append, countP_objectId_zero t.memoryMapping sh.nextId h2]
      simp [List.countP_cons]
  · intro n u h
    exact countP_objectId_zero u.memoryMapping n h
  · intro sh t obj vaddr
    exact ⟨rfl, rfl, refcountOf_ref sh obj.id⟩
  · intro sh oid o h
    simp only [memory_object_by_id, h]
    exact refcountOf_ref sh oid

/-- C6 witness: allocating 5000 bytes in an empty registry leaves the
object at refcount 1, solely owned by the one new mapping, and a
successful `by_id` lookup in a one-object registry bumps the refcount
from 1 to 2. -/
theorem shared_memory_alloc_sole_owner_witness :
    (refcountOf (task_shared_memory_alloc sh₀ t₀ 5000 9999 4096).2.2.2 0 = some 1
     ∧ mappingsTo (task_shared_memory_alloc sh₀ t₀ 5000 9999 4096).2.2.1 0 = 1
     ∧ (task_shared_memory_alloc sh₀ t₀ 5000 9999 4096).1 = Result.SUCCESS)
    ∧ mappingsTo t₀ 0 = 0
    ∧ refcountOf (memory_object_by_id shOne 0).2 0
        = (refcountOf shOne 0).map (fun n => n + 1) :=
  ⟨shared_memory_alloc_sole_owner.1 sh₀ t₀ 5000 9999 4096
      (by simp [sh₀]) (by simp [t₀]),
   shared_memory_alloc_sole_owner.2.1 0 t₀ (by simp [t₀]),
   shared_memory_alloc_sole_owner.2.2.2 shOne 0
      { id := 0, refcount := 1, address := 0, size := 4096 } rfl⟩

/- ================================================================= -/
/- C7: task_shared_memory_free and exact base-address matching       -/
/- ================================================================= -/

theorem find?_address_none (l : List MemoryMapping) (addr : Nat)
    (h : ∀ m ∈ l, m.address ≠ addr) :
    l.find? (fun m => m.address == addr) = Option.none := by
  rw [List.find?_eq_none]
  intro m hm
  simpa using h m hm

/-- C7: `task_shared_memory_free` returns BAD_ADDRESS and changes
nothing whenever no mapping of the task has exactly the given base
address — in particular for an address strictly inside some mapping —
and when a mapping's base matches exactly, that mapping is destroyed
(dropped from the task, its object dereferenced) and SUCCESS is
returned. -/
theorem shared_memory_free_exact_match :
    (∀ (sh : SharedState) (t : Task) (address : Nat),
        (∀ m ∈ t.memoryMapping, m.address ≠ address) →
        task_shared_memory_free sh t address = (Result.ERR_BAD_ADDRESS, t, sh))
    ∧ (∀ (sh : SharedState) (t : Task) (address : Nat) (m₀ : MemoryMapping),
        m₀ ∈ t.memoryMapping → m₀.address < address →
        address < m₀.address + m₀.size →
        (∀ m ∈ t.memoryMapping, m.address ≠ address) →
        task_shared_memory_free sh t address = (Result.ERR_BAD_ADDRESS, t, sh))
    ∧ (∀ (sh : SharedState) (t : Task) (address : Nat) (m : MemoryMapping),
        task_memory_mapping_by_address t address = some m →
        task_shared_memory_free sh t address
          = (Result.SUCCESS,
             { t with memoryMapping := t.memoryMapping.eraseP (fun x => x == m) },
             memory_object_deref sh m.objectId)) := by
  refine ⟨?_, ?_, ?_⟩
  · intro sh t address h
    simp [task_shared_memory_free, task_memory_mapping_by_address,
      find?_address_none t.memoryMapping address h]
  · intro sh t address m₀ _ _ _ h
    simp [task_shared_memory_free, task_memory_mapping_by_address,
      find?_address_none t.memoryMapping address h]
  · intro sh t address m h
    simp [task_shared_memory_free, h, task_memory_mapping_destroy]

/-- C7 witness: on a task with one mapping `[4096, 8192)`, freeing the
unmapped address 999 and the interior address 5000 both return
BAD_ADDRESS leaving everything unchanged, while freeing the exact base
4096 destroys the mapping and returns SUCCESS. -/
theorem shared_memory_free_exact_match_witness :
    task_shared_memory_free shOne tMapped 999
        = (Result.ERR_BAD_ADDRESS, tMapped, shOne)
    ∧ task_shared_memory_free shOne tMapped 5000
        = (Result.ERR_BAD_ADDRESS, tMapped, shOne)
    ∧ task_shared_memory_free shOne tMapped 4096
        = (Result.SUCCESS,
           { tMapped with memoryMapping := (tMapped.memoryMapping.eraseP
               (fun x => x == { objectId := 0, address := 4096, size := 4096 })) },
           memory_object_deref shOne 0) :=
  ⟨shared_memory_free_exact_match.1 shOne tMapped 999 (by simp [tMapped]),
   shared_memory_free_exact_match.2.1 shOne tMapped 5000
     { objectId := 0, address := 4096, size := 4096 }
     (by simp [tMapped]) (by decide) (by decide) (by simp [tMapped]),
   shared_memory_free_exact_match.2.2 shOne tMapped 4096
     { objectId := 0, address := 4096, size := 4096 } rfl⟩

/- ================================================================= -/
/- C8: task_destroy removes the task from the registry               -/
/- ================================================================= -/

/-- After erasing the (unique) holder of an id, no task with that id is
found any more. -/
theorem find?_eraseP_id_none (l : List Task) (t : Task) (hmem : t ∈ l)
    (hpw : l.Pairwise (fun a b => a.id ≠ b.id)) :
    (l.eraseP (fun x => x.id == t.id)).find? (fun x => x.id == t.id)
      = Option.none := by
  induction l with
  | nil => cases hmem
  | cons a l ih =>
      obtain ⟨ha, hl⟩ := List.pairwise_cons.mp hpw
      by_cases h : a.id = t.id
      · rw [List.eraseP_cons_of_pos (by simpa using h), List.find?_eq_none]
        intro x hx
        have : a.id ≠ x.id := ha x hx
        simp only [ne_eq, beq_iff_eq]
        omega
      · have hmem' : t ∈ l := by
          rcases List.mem_cons.mp hmem with heq | hm
          · exact absurd (heq ▸ rfl) h
          · exact hm
        rw [List.eraseP_cons_of_neg (by simpa using h),
          List.find?_cons_of_neg _ (by simpa using h)]
        exact ih hmem' hl

/-- C8: for a task in a registry of pairwise-distinct ids, after
`task_destroy` the task's id is no longer found (`by_id` returns none),
the task itself is gone from the registry, the transition reported to
the scheduler is `(old state, NONE)` (none when already NONE), every one
of the task's memory mappings was destroyed, and the page directory was
destroyed exactly when it was not the kernel's shared one. -/
theorem destroy_removes_from_registry (tasks : List Task) (sh : SharedState)
    (t : Task) (hmem : t ∈ tasks)
    (hpw : tasks.Pairwise (fun a b => a.id ≠ b.id)) :
    task_by_id (task_destroy tasks sh t).tasks t.id = Option.none
    ∧ t ∉ (task_destroy tasks sh t).tasks
    ∧ (task_destroy tasks sh t).report
        = (if t.state = TaskState.none then Option.none
           else some (t.state, TaskState.none))
    ∧ (task_destroy tasks sh t).mappingsDestroyed = t.memoryMapping.length
    ∧ (task_destroy tasks sh t).pdirDestroyed = !t.pdirKernel := by
  have hfind : task_by_id (task_destroy tasks sh t).tasks t.id = Option.none := by
    simpa [task_destroy, task_by_id] using find?_eraseP_id_none tasks t hmem hpw
  refine ⟨hfind, ?_, ?_, rfl, rfl⟩
  · intro habs
    have hall := List.find?_eq_none.mp hfind t habs
    simp at hall
  · by_cases h : t.state = TaskState.none
    · simp [task_destroy, task_set_state, h]
    · simp [task_destroy, task_set_state, h]

/-- C8 witness: destroying the task with id 5 out of the two-task
registry `[t₀, t₅]` makes id 5 unfindable, removes the task, reports
`(RUNNING, NONE)`, destroys its zero mappings, and does not destroy the
kernel-shared page directory. -/
theorem destroy_removes_from_registry_witness :
    task_by_id (task_destroy [t₀, t₅] sh₀ t₅).tasks t₅.id = Option.none
    ∧ t₅ ∉ (task_destroy [t₀, t₅] sh₀ t₅).tasks
    ∧ (task_destroy [t₀, t₅] sh₀ t₅).report
        = (if t₅.state = TaskState.none then Option.none
           else some (t₅.state, TaskState.none))
    ∧ (task_destroy [t₀, t₅] sh₀ t₅).mappingsDestroyed
        = t₅.memoryMapping.length
    ∧ (task_destroy [t₀, t₅] sh₀ t₅).pdirDestroyed = !t₅.pdirKernel :=
  destroy_removes_from_registry [t₀, t₅] sh₀ t₅
    (List.mem_cons_of_mem t₀ (List.mem_cons_self t₅ []))
    (by simp [t₀, t₅])

/- ================================================================= -/
/- C9: set_cwd on a relative path                                    -/
/- ================================================================= -/

/-- C9: `task_cwd_resolve` combines a relative input with the task's cwd
and normalizes (so `task_set_cwd` on a relative text equals the
spec-level `set_cwd` of `normalize(combine(old_cwd, rel))`), while an
absolute input is only normalized. -/
theorem set_cwd_relative_equiv :
    (∀ (fs : Path → Option FsNode) (t : Task) (rel : String),
        path_is_relative (path_create rel) = true →
        task_set_cwd fs t rel
          = set_cwd_spec fs t
              (path_normalize (path_combine t.cwdPath (path_create rel))))
    ∧ (∀ (t : Task) (s : String),
        path_is_relative (path_create s) = false →
        task_cwd_resolve t s = path_normalize (path_create s)) := by
  constructor
  · intro fs t rel h
    simp [task_set_cwd, set_cwd_spec, task_cwd_resolve, h]
  · intro t s h
    simp [task_cwd_resolve, h]

/-- C9 witness: with a filesystem in which every path is a directory,
`task_set_cwd` of the relative text `a/b` equals the spec-level install
of `normalize(combine(cwd, a/b))`, and resolving the absolute text `/x`
only normalizes it. -/
theorem set_cwd_relative_equiv_witness :
    task_set_cwd (fun _ => some { type := FileType.directory }) t₀ "a/b"
      = set_cwd_spec (fun _ => some { type := FileType.directory }) t₀
          (path_normalize (path_combine t₀.cwdPath (path_create "a/b")))
    ∧ task_cwd_resolve t₀ "/x" = path_normalize (path_create "/x") :=
  ⟨set_cwd_relative_equiv.1 (fun _ => some { type := FileType.directory }) t₀
      "a/b" (by decide),
   set_cwd_relative_equiv.2 t₀ "/x" (by decide)⟩

end Tasking
